import Mathlib

/-!
Verification of the bridge network driver control plane.

The driver's network/endpoint lifecycle, its firewall-rule bookkeeping and
its configuration validation are embedded below; pure functions of the Go
code become Lean functions, the driver's mutable state becomes explicit
state passing.  Machine integers are modelled as `Nat`; IPv4/IPv6
addresses are the `Nat` value of their bits.
-/

/-- Decidable equality for `Except`, so concrete results of fallible
operations can be checked by `decide`. -/
instance {ε α : Type} [DecidableEq ε] [DecidableEq α] : DecidableEq (Except ε α) := fun a b =>
  match a, b with
  | .ok x, .ok y =>
      if h : x = y then .isTrue (h ▸ rfl)
      else .isFalse (fun hc => h (Except.ok.inj hc))
  | .error x, .error y =>
      if h : x = y then .isTrue (h ▸ rfl)
      else .isFalse (fun hc => h (Except.error.inj hc))
  | .ok _, .error _ => .isFalse (fun hc => Except.noConfusion hc)
  | .error _, .ok _ => .isFalse (fun hc => Except.noConfusion hc)

namespace INC

/-- A live network as the isolation-rule bookkeeping sees it: its id and
its IPv4 subnet (the masked subnet value). -/
structure Net where
  id : Nat
  subnet : Nat
deriving DecidableEq, Repr

/-- A forwarding-table isolation rule `DROP -s r.1 -d r.2`; the printed
rule line contains both subnet strings. -/
abbrev Rule := Nat × Nat

/-- Driver state: the live networks (in creation order) and the installed
forwarding-table isolation rules. -/
structure DrvState where
  networks : List Net
  rules : List Rule
deriving DecidableEq, Repr

def initState : DrvState := ⟨[], []⟩

/-- Modelled from the spec: the pair of DROP rules installed between a
newly created network with subnet `s` and each pre-existing network
("for every ordered pair of distinct live networks (A,B), one DROP rule
for traffic entering A's bridge destined to B's subnet"). -/
def incPairs (s : Nat) (nets : List Net) : List Rule :=
  nets.flatMap (fun n => [(s, n.subnet), (n.subnet, s)])

/-- Modelled from the spec: `CreateNetwork` of the bridge driver (the
driver source is not in the repository; only its tests are).  A network
whose id or subnet collides with a live one is rejected (IPAM
`OverlapPool` / duplicate network), leaving the state unchanged; otherwise
the network is appended and exactly the pairwise isolation rules against
all prior networks are installed before the call returns. -/
def createNetwork (id s : Nat) (st : DrvState) : DrvState :=
  if st.networks.any (fun n => n.id == id || n.subnet == s) then st
  else { networks := st.networks ++ [⟨id, s⟩]
         rules := st.rules ++ incPairs s st.networks }

/-- Modelled from the spec: `DeleteNetwork` of the bridge driver.  An
unknown id is a no-op (error path); otherwise the network is removed
together with precisely the isolation rules that mention its subnet. -/
def deleteNetwork (id : Nat) (st : DrvState) : DrvState :=
  match st.networks.find? (fun n => n.id == id) with
  | none => st
  | some n =>
      { networks := st.networks.filter (fun m => m.id != id)
        rules := st.rules.filter (fun r => r.1 != n.subnet && r.2 != n.subnet) }

/-- A lifecycle call on the driver. -/
inductive Op where
  | create (id subnet : Nat)
  | delete (id : Nat)
deriving DecidableEq, Repr

def applyOp (st : DrvState) : Op → DrvState
  | .create id s => createNetwork id s st
  | .delete id => deleteNetwork id st

/-- Run a sequence of CreateNetwork/DeleteNetwork calls on a freshly
configured driver (iptables enabled). -/
def run (ops : List Op) : DrvState := ops.foldl applyOp initState

/-- Number of forwarding-table entries whose printed line matches subnet
`s` (a rule line contains the source and the destination subnet). -/
def matchCount (s : Nat) (rules : List Rule) : Nat :=
  rules.countP (fun r => r.1 == s || r.2 == s)

/-- The canonical isolation rule set of a list of live networks: every
network is pairwise isolated from every other. -/
def canonical : List Net → List Rule
  | [] => []
  | n :: rest => incPairs n.subnet rest ++ canonical rest

/-- Well-formedness invariant: live networks have pairwise distinct ids
and subnets, and the installed rules are (up to order) the canonical
pairwise isolation rules. -/
def Wf (st : DrvState) : Prop :=
  st.networks.Pairwise (fun a b => a.id ≠ b.id ∧ a.subnet ≠ b.subnet) ∧
  st.rules.Perm (canonical st.networks)

end INC

namespace Cfg

/-- A CIDR block: the address bits as a `Nat` plus the prefix length. -/
structure IPNet where
  addr : Nat
  maskLen : Nat
deriving DecidableEq, Repr

/-- First address of the block (the address masked to the prefix), for
an address family of bit width `w`. -/
def IPNet.base (w : Nat) (n : IPNet) : Nat :=
  n.addr / 2 ^ (w - n.maskLen) * 2 ^ (w - n.maskLen)

/-- Number of addresses in the block. -/
def IPNet.size (w : Nat) (n : IPNet) : Nat := 2 ^ (w - n.maskLen)

/-- `net.IPNet.Contains`: the address lies inside the block. -/
def IPNet.containsIP (w : Nat) (n : IPNet) (ip : Nat) : Bool :=
  n.base w ≤ ip && ip < n.base w + n.size w

/-- Full containment of CIDR `inner` in CIDR `outer`: the inner block's
address lies in the outer block and the inner prefix is at least as
long (so the whole inner block is inside the outer one). -/
def IPNet.containsNet (w : Nat) (outer inner : IPNet) : Bool :=
  outer.containsIP w inner.addr && decide (outer.maskLen ≤ inner.maskLen)

/-- Error kinds of the driver. -/
inductive NetErr where
  | badRequest (msg : String)
  | forbidden (msg : String)
  | notFound (msg : String)
  | exhausted (msg : String)
deriving DecidableEq, Repr

/-- The bridge network configuration fields exercised by `Validate`. -/
structure NetworkConfiguration where
  mtu : Int
  addressIPv4 : Option IPNet
  fixedCIDR : Option IPNet
  defaultGatewayIPv4 : Option Nat
  enableIPv6 : Bool
  fixedCIDRv6 : Option IPNet
  defaultGatewayIPv6 : Option Nat
deriving DecidableEq, Repr

/-- Modelled from the spec: the fixed-sub-CIDR check of
`networkConfiguration.Validate` (driver source absent from the
repository, only TestValidateConfig is): "if a fixed container-address
sub-CIDR is given it must be fully contained in the network's address
block". -/
def checkFixedCIDR (c : NetworkConfiguration) : Except NetErr Unit :=
  match c.addressIPv4, c.fixedCIDR with
  | some nw, some f =>
      if IPNet.containsNet 32 nw f then .ok ()
      else .error (.badRequest "invalid container subnet")
  | _, _ => .ok ()

/-- Modelled from the spec: the IPv4 gateway check of `Validate`: "if an
explicit default gateway is given it must lie inside the fixed sub-CIDR
when one is set, else inside the full subnet". -/
def checkGatewayIPv4 (c : NetworkConfiguration) : Except NetErr Unit :=
  match c.defaultGatewayIPv4 with
  | none => .ok ()
  | some gw =>
      match c.fixedCIDR with
      | some f =>
          if IPNet.containsIP 32 f gw then .ok ()
          else .error (.badRequest "invalid gateway")
      | none =>
          match c.addressIPv4 with
          | some nw =>
              if IPNet.containsIP 32 nw gw then .ok ()
              else .error (.badRequest "invalid gateway")
          | none => .error (.badRequest "invalid gateway")

/-- Modelled from the spec: the IPv6 gateway check of `Validate`: the
"IPv6 gateway validated analogously against the v6 fixed sub-CIDR, and
is invalid if no v6 fixed sub-CIDR exists at all". -/
def checkGatewayIPv6 (c : NetworkConfiguration) : Except NetErr Unit :=
  match c.defaultGatewayIPv6 with
  | none => .ok ()
  | some gw6 =>
      match c.fixedCIDRv6 with
      | some f6 =>
          if IPNet.containsIP 128 f6 gw6 then .ok ()
          else .error (.badRequest "invalid v6 gateway")
      | none => .error (.badRequest "invalid v6 gateway")

/-- Modelled from the spec: `networkConfiguration.Validate` of the
bridge driver — MTU must not be negative, then the fixed-sub-CIDR,
IPv4-gateway and IPv6-gateway checks run in order. -/
def validate (c : NetworkConfiguration) : Except NetErr Unit :=
  if c.mtu < 0 then .error (.badRequest "invalid MTU")
  else
    match checkFixedCIDR c with
    | .error e => .error e
    | .ok _ =>
        match checkGatewayIPv4 c with
        | .error e => .error e
        | .ok _ => checkGatewayIPv6 c

/-- The claim's wording of the IPv4 gateway condition: the gateway lies
inside the fixed sub-CIDR when one is set, else inside the full subnet. -/
def gatewayV4Ok (c : NetworkConfiguration) (gw : Nat) : Bool :=
  match c.fixedCIDR with
  | some f => IPNet.containsIP 32 f gw
  | none =>
      match c.addressIPv4 with
      | some nw => IPNet.containsIP 32 nw gw
      | none => false

/-- The `Nat` value of a dotted-quad IPv4 address. -/
def ipv4 (a b c d : Nat) : Nat := ((a * 256 + b) * 256 + c) * 256 + d

/-- The claim's rejected example: FixedCIDR 172.28.0.0/16 with gateway
172.27.30.234. -/
def gwExampleBad : NetworkConfiguration :=
  { mtu := 0
    addressIPv4 := some ⟨ipv4 172 28 0 0, 16⟩
    fixedCIDR := some ⟨ipv4 172 28 0 0, 16⟩
    defaultGatewayIPv4 := some (ipv4 172 27 30 234)
    enableIPv6 := false
    fixedCIDRv6 := none
    defaultGatewayIPv6 := none }

/-- The claim's accepted example: same network with gateway
172.28.30.234. -/
def gwExampleGood : NetworkConfiguration :=
  { gwExampleBad with defaultGatewayIPv4 := some (ipv4 172 28 30 234) }

/-- The TestValidateConfig bridge network 172.28.0.0/16 with no fixed
sub-CIDR and no gateways. -/
def fixedBase : NetworkConfiguration :=
  { mtu := 0
    addressIPv4 := some ⟨ipv4 172 28 0 0, 16⟩
    fixedCIDR := none
    defaultGatewayIPv4 := none
    enableIPv6 := false
    fixedCIDRv6 := none
    defaultGatewayIPv6 := none }

/-- Fixed sub-CIDR 172.27.0.0/16: disjoint from the network block. -/
def fixedExampleDisjoint : NetworkConfiguration :=
  { fixedBase with fixedCIDR := some ⟨ipv4 172 27 0 0, 16⟩ }

/-- Fixed sub-CIDR 172.28.0.0/16: equal to the network block. -/
def fixedExampleEqual : NetworkConfiguration :=
  { fixedBase with fixedCIDR := some ⟨ipv4 172 28 0 0, 16⟩ }

/-- Fixed sub-CIDR 172.28.0.0/15: a strictly larger enclosing block. -/
def fixedExampleLarger : NetworkConfiguration :=
  { fixedBase with fixedCIDR := some ⟨ipv4 172 28 0 0, 15⟩ }

/-- Fixed sub-CIDR 172.28.0.0/17: a smaller contained block. -/
def fixedExampleSmaller : NetworkConfiguration :=
  { fixedBase with fixedCIDR := some ⟨ipv4 172 28 0 0, 17⟩ }

end Cfg

namespace Drv

/-- Default bridge device name of the driver. -/
def DefaultBridgeName : String := "docker0"

/-- A live network of the bridge driver: its id and bridge device name. -/
structure BNet where
  id : String
  bridgeName : String
deriving DecidableEq, Repr

/-- Bridge driver state for the network-level lifecycle calls. -/
structure DState where
  networks : List BNet
deriving DecidableEq, Repr

/-- Modelled from the spec: the default-name guard of the bridge driver's
`CreateNetwork` (driver source absent from the repository; only
TestCreate): it "rejects a second network bound to the same default
bridge name ... (`Forbidden`)"; the prior network is left in place, not
overwritten. -/
def createNetworkD (st : DState) (id : String) (bridgeName : String) :
    Except Cfg.NetErr DState :=
  if bridgeName = DefaultBridgeName ∧
      st.networks.any (fun n => n.bridgeName == DefaultBridgeName) then
    .error (.forbidden "only one default network allowed")
  else .ok { networks := st.networks ++ [⟨id, bridgeName⟩] }

/-- Modelled from the spec: `DeleteNetwork` of the bridge driver: it
"fails `Forbidden` for the default network"; an unknown id is
`NotFound`. -/
def deleteNetworkD (st : DState) (id : String) : Except Cfg.NetErr DState :=
  match st.networks.find? (fun n => n.id == id) with
  | none => .error (.notFound "no such network")
  | some n =>
      if n.bridgeName = DefaultBridgeName then
        .error (.forbidden "default network cannot be deleted")
      else .ok { networks := st.networks.filter (fun m => m.id != id) }

end Drv

namespace Link

/-- A transport port of an exposed-ports list: protocol and port number. -/
structure TransportPort where
  proto : Nat
  port : Nat
deriving DecidableEq, Repr

/-- An exposed-port firewall rule installed for one parent/child link:
either the ACCEPT rule matching the destination port (`dpt` pattern) or
the reverse source-port rule (`spt` pattern). -/
inductive PortRule where
  | dport (proto port : Nat) (parent child : String)
  | sport (proto port : Nat) (parent child : String)
deriving DecidableEq, Repr

/-- An endpoint of the network: its id and exposed ports. -/
structure Ep where
  id : String
  exposedPorts : List TransportPort
deriving DecidableEq, Repr

/-- A network as the link step of `Join` sees it: its endpoints. -/
structure LNet where
  endpoints : List Ep
deriving DecidableEq, Repr

/-- The rules one parent→child link installs: one destination-port and
one source-port rule per exposed port of the child endpoint. -/
def linkRules (child : Ep) (parentId : String) : List PortRule :=
  child.exposedPorts.flatMap (fun p =>
    [.dport p.proto p.port parentId child.id, .sport p.proto p.port parentId child.id])

/-- Modelled from the spec: the sequential link-programming loop of the
bridge driver's `Join` (driver source absent; only TestLinkContainers):
each named child is resolved in the network and its exposed-port rules
are appended; an unresolvable child name returns an error. -/
def installLinks (net : LNet) (parentId : String) :
    List String → List PortRule → Except Cfg.NetErr (List PortRule)
  | [], fw => .ok fw
  | c :: rest, fw =>
      match net.endpoints.find? (fun e => e.id == c) with
      | none => .error (.notFound ("no endpoint " ++ c))
      | some child => installLinks net parentId rest (fw ++ linkRules child parentId)

/-- Modelled from the spec: the link step of `Join` with its rollback:
"an unresolvable child name aborts the join and all partial rules
inserted so far for that join are rolled back before the error is
returned", so on error the firewall state is restored to its pre-join
contents. -/
def joinLink (net : LNet) (parentId : String) (children : List String)
    (fw : List PortRule) : Except Cfg.NetErr Unit × List PortRule :=
  match installLinks net parentId children fw with
  | .ok updated => (.ok (), updated)
  | .error e => (.error e, fw)

/-- Number of destination-port (`dpt`) rule lines for the given
protocol/port in the firewall state. -/
def countDport (fw : List PortRule) (proto port : Nat) : Nat :=
  fw.countP (fun r =>
    match r with
    | .dport p q _ _ => p == proto && q == port
    | _ => false)

/-- Number of source-port (`spt`) rule lines for the given protocol/port
in the firewall state. -/
def countSport (fw : List PortRule) (proto port : Nat) : Nat :=
  fw.countP (fun r =>
    match r with
    | .sport p q _ _ => p == proto && q == port
    | _ => false)

end Link

namespace Oper

/-- `types.PortBinding` as used by the port-mapping snapshot: protocol,
container port and host port. -/
structure PortBinding where
  proto : Nat
  port : Nat
  hostPort : Nat
deriving DecidableEq, Repr

/-- A bridge endpoint carrying its stored port mappings. -/
structure OEp where
  id : String
  portMapping : List PortBinding
deriving DecidableEq, Repr

/-- A bridge network with its endpoints. -/
structure ONet where
  id : String
  endpoints : List OEp
deriving DecidableEq, Repr

/-- Driver state for the operational-info queries. -/
structure OState where
  networks : List ONet
deriving DecidableEq, Repr

/-- Modelled from the spec: the port-mapping bookkeeping of
`CreateEndpoint` (driver source absent; only testQueryEndpointInfo): the
endpoint is created in the named network, storing the requested port
bindings; it fails if the network is unknown or the endpoint exists. -/
def createEndpointO (st : OState) (nid eid : String) (portMap : List PortBinding) :
    Except Cfg.NetErr OState :=
  match st.networks.find? (fun n => n.id == nid) with
  | none => .error (.notFound "network not found")
  | some n =>
      if n.endpoints.any (fun e => e.id == eid) then
        .error (.forbidden "endpoint exists")
      else
        .ok { networks := st.networks.map (fun m =>
          if m.id == nid then { m with endpoints := m.endpoints ++ [⟨eid, portMap⟩] }
          else m) }

/-- Modelled from the spec: `EndpointOperInfo(networkID, endpointID)`: a
"read-only snapshot of live port-mapping state for the endpoint" — it
returns the endpoint's stored port mappings under the port-map key and,
being a pure function of the state, modifies nothing. -/
def endpointOperInfo (st : OState) (nid eid : String) :
    Except Cfg.NetErr (List PortBinding) :=
  match st.networks.find? (fun n => n.id == nid) with
  | none => .error (.notFound "network not found")
  | some n =>
      match n.endpoints.find? (fun e => e.id == eid) with
      | none => .error (.notFound "endpoint not found")
      | some e => .ok e.portMapping

end Oper

namespace Ipam

/-- A network's address-assignment state: its subnet, the optional fixed
container sub-CIDR, the gateway reservation, and the already-leased
addresses. -/
structure ANet where
  subnet : Cfg.IPNet
  fixedCIDR : Option Cfg.IPNet
  gateway : Option Nat
  allocated : List Nat
deriving DecidableEq, Repr

/-- The pool container addresses are drawn from: the fixed sub-CIDR when
configured, else the full subnet. -/
def addrPool (n : ANet) : Cfg.IPNet := n.fixedCIDR.getD n.subnet

/-- Modelled from the spec: `RequestAddress` of the IPAM allocator (the
repository vendors only the ipamapi interface): "returns the lowest free
address in the pool's usable range, skipping network/broadcast/gateway
reservations", failing `NoAvailableIPs` when the pool is exhausted. -/
def requestAddress (pool : Cfg.IPNet) (gw : Option Nat) (allocated : List Nat) :
    Except Cfg.NetErr Nat :=
  match (List.range (pool.size 32)).find? (fun i =>
      decide (0 < i) && decide (i < pool.size 32 - 1) &&
      !(allocated.contains (pool.base 32 + i)) &&
      !(gw == some (pool.base 32 + i))) with
  | some i => .ok (pool.base 32 + i)
  | none => .error (.exhausted "no available IPs")

/-- Modelled from the spec: the IPv4 address-assignment step of
`CreateEndpoint` (driver source absent; only TestCreateFullOptions):
leases an address from the network's pool — the fixed sub-CIDR when one
is configured. -/
def createEndpointA (n : ANet) : Except Cfg.NetErr (Nat × ANet) :=
  match requestAddress (addrPool n) n.gateway n.allocated with
  | .error e => .error e
  | .ok a => .ok (a, { n with allocated := n.allocated ++ [a] })

end Ipam

namespace Api

/-- The interface info of an endpoint (`e.Info().Iface()`): MAC and
IPv4/IPv6 address strings; `none` models Go's nil MAC / zero-length IP. -/
structure Iface where
  macAddress : Option String
  address : Option String
  addressIPv6 : Option String
deriving DecidableEq, Repr

/-- A sandbox (`e.Info().Sandbox()`): carries the container id. -/
structure Sandbox where
  containerID : String
deriving DecidableEq, Repr

/-- A libnetwork endpoint as `buildNetworkResource` consumes it. -/
structure Endpoint where
  id : String
  sandbox : Option Sandbox
  iface : Option Iface
deriving DecidableEq, Repr

/-- A libnetwork network as the router consumes it. -/
structure Network where
  name : String
  id : String
  driverType : String
  endpoints : List Endpoint
deriving DecidableEq, Repr

/-- `types.EndpointResource`. -/
structure EndpointResource where
  endpointID : String
  macAddress : String
  ipv4Address : String
  ipv6Address : String
deriving DecidableEq, Repr

/-- `types.NetworkResource`; the `Containers` Go map is modelled as an
association list keyed by container id, a later insert replacing an
earlier entry under the same key. -/
structure NetworkResource where
  name : String
  id : String
  driver : String
  containers : List (String × EndpointResource)
deriving DecidableEq, Repr

/-- Go map assignment `r.Containers[k] = v`: replaces any existing entry
under the same key. -/
def mapInsert (m : List (String × EndpointResource)) (k : String)
    (v : EndpointResource) : List (String × EndpointResource) :=
  m.filter (fun p => p.1 != k) ++ [(k, v)]

/-- The `er` value built in the loop body of `buildNetworkResource`. -/
def endpointResourceOf (e : Endpoint) : EndpointResource :=
  { endpointID := e.id
    macAddress := match e.iface with
      | some i => i.macAddress.getD ""
      | none => ""
    ipv4Address := match e.iface with
      | some i => i.address.getD ""
      | none => ""
    ipv6Address := match e.iface with
      | some i => i.addressIPv6.getD ""
      | none => "" }

/-- The loop of `buildNetworkResource` over the network's endpoint list
(src/api/server/router/network/network.go): an endpoint whose sandbox is
nil is skipped (`continue`); otherwise its view is inserted under its
sandbox's container id. -/
def buildContainersGo (acc : List (String × EndpointResource)) :
    List Endpoint → List (String × EndpointResource)
  | [] => acc
  | e :: rest =>
      match e.sandbox with
      | none => buildContainersGo acc rest
      | some sb => buildContainersGo (mapInsert acc sb.containerID (endpointResourceOf e)) rest

/-- `buildNetworkResource` (src/api/server/router/network/network.go): a
nil network yields the empty resource, otherwise name/id/driver are
copied and the Containers map is built from the endpoint list. -/
def buildNetworkResource (nw : Option Network) : NetworkResource :=
  match nw with
  | none => { name := "", id := "", driver := "", containers := [] }
  | some n =>
      { name := n.name
        id := n.id
        driver := n.driverType
        containers := buildContainersGo [] n.endpoints }

/-- A controller-registered network: id and name. -/
structure CNet where
  id : String
  name : String
deriving DecidableEq, Repr

/-- Errors of the network router. -/
inductive ApiErr where
  | noSuchNetwork (name : String)
  | networkNameError (name : String)
  | unexpectedSelector
deriving DecidableEq, Repr

/-- The network controller as the router sees it
(`libnetwork.NetworkController`, an external collaborator): the
registered networks and the daemon's configured default network name. -/
structure Ctrl where
  networks : List CNet
  defaultNetwork : String
deriving DecidableEq, Repr

/-- Modelled from the spec: `NetworkByName` of the controller (external
to this repository): resolves the first network with the given name,
`ErrNoSuchNetwork` otherwise. -/
def networkByName (c : Ctrl) (s : String) : Except ApiErr CNet :=
  match c.networks.find? (fun n => n.name == s) with
  | some n => .ok n
  | none => .error (.noSuchNetwork s)

/-- Modelled from the spec: `NetworkByID` of the controller (external to
this repository). -/
def networkByID (c : Ctrl) (s : String) : Except ApiErr CNet :=
  match c.networks.find? (fun n => n.id == s) with
  | some n => .ok n
  | none => .error (.noSuchNetwork s)

/-- The `by` selector of `findNetwork`. -/
inductive Selector where
  | byID
  | byName
deriving DecidableEq, Repr

/-- `findNetwork` (src/api/server/router/network/network.go): for a
by-name lookup an empty name is first replaced by the daemon's
configured default network name. -/
def findNetwork (c : Ctrl) (s : String) (sel : Selector) : Except ApiErr CNet :=
  match sel with
  | .byID => networkByID c s
  | .byName => networkByName c (if s = "" then c.defaultNetwork else s)

/-- `types.NetworkCreate` fields used by the create handler. -/
structure NetworkCreate where
  name : String
  checkDuplicate : Bool
deriving DecidableEq, Repr

/-- `types.NetworkCreateResponse`. -/
structure NetworkCreateResponse where
  id : String
  warning : String
deriving DecidableEq, Repr

/-- Modelled from the spec: `NewNetwork` of the controller (external):
registers a fresh network with the requested name under a fresh id. -/
def newNetwork (c : Ctrl) (freshID name : String) : Ctrl :=
  { c with networks := c.networks ++ [⟨freshID, name⟩] }

/-- `postNetworkCreate` (src/api/server/router/network/network.go): a
`NoSuchNetwork` lookup failure is tolerated; a pre-existing network with
the requested name fails the request only when `CheckDuplicate` is set,
otherwise a warning naming the existing network is produced and a new
network is created regardless. -/
def postNetworkCreate (c : Ctrl) (create : NetworkCreate) (freshID : String) :
    Except ApiErr (Ctrl × NetworkCreateResponse) :=
  match findNetwork c create.name Selector.byName with
  | .error (.noSuchNetwork _) =>
      .ok (newNetwork c freshID create.name, { id := freshID, warning := "" })
  | .error e => .error e
  | .ok nw =>
      if create.checkDuplicate then .error (.networkNameError create.name)
      else
        .ok (newNetwork c freshID create.name,
          { id := freshID
            warning := "Network with name " ++ nw.name ++ " (id : " ++ nw.id
              ++ ") already exists" })

end Api

-- ALLDEFS_END (definitions above, theorems below)

namespace INC

theorem incPairs_filter_self (d : Nat) (rest : List Net) :
    (incPairs d rest).filter (fun r => r.1 != d && r.2 != d) = [] := by
  induction rest with
  | nil => rfl
  | cons m rest ih =>
      simp only [incPairs, List.flatMap_cons, List.filter_append] at *
      simp [List.filter_cons, ih]

theorem incPairs_filter_ne (t d : Nat) (ht : t ≠ d) (rest : List Net) :
    (incPairs t rest).filter (fun r => r.1 != d && r.2 != d) =
      incPairs t (rest.filter (fun m => m.subnet != d)) := by
  induction rest with
  | nil => rfl
  | cons m rest ih =>
      simp only [incPairs, List.flatMap_cons, List.filter_append, List.filter_cons] at *
      by_cases hm : m.subnet = d
      · simp [hm, ht, ih]
      · simp [hm, ht, ih]

theorem canonical_filter (d : Nat) (nets : List Net) :
    (canonical nets).filter (fun r => r.1 != d && r.2 != d) =
      canonical (nets.filter (fun m => m.subnet != d)) := by
  induction nets with
  | nil => rfl
  | cons n rest ih =>
      simp only [canonical, List.filter_append, List.filter_cons]
      by_cases hn : n.subnet = d
      · simp [hn, incPairs_filter_self, ih]
      · simp [hn, canonical, incPairs_filter_ne n.subnet d hn, ih]

end INC

namespace INC

theorem incPairs_append (s : Nat) (l₁ l₂ : List Net) :
    incPairs s (l₁ ++ l₂) = incPairs s l₁ ++ incPairs s l₂ := by
  simp [incPairs, List.flatMap_append]

theorem canonical_append_singleton (x : Net) (nets : List Net) :
    (canonical (nets ++ [x])).Perm (canonical nets ++ incPairs x.subnet nets) := by
  induction nets with
  | nil => simp [canonical, incPairs]
  | cons n rest ih =>
      simp only [List.cons_append, canonical, incPairs_append]
      refine List.Perm.trans (List.Perm.append_left _ ih) ?_
      refine List.perm_iff_count.2 (fun a => ?_)
      simp only [incPairs, List.append_eq, List.flatMap_append, List.flatMap_cons,
        List.flatMap_nil, List.append_nil, List.count_append, List.count_cons, List.count_nil]
      omega

end INC

namespace INC

theorem matchCount_append (s : Nat) (l₁ l₂ : List Rule) :
    matchCount s (l₁ ++ l₂) = matchCount s l₁ + matchCount s l₂ := by
  simp [matchCount, List.countP_append]

theorem matchCount_incPairs (s t : Nat) (rest : List Net) :
    matchCount s (incPairs t rest) =
      2 * rest.countP (fun m => t == s || m.subnet == s) := by
  induction rest with
  | nil => rfl
  | cons m rest ih =>
      simp only [incPairs, List.flatMap_cons, matchCount] at ih ⊢
      rw [List.countP_append, ih, List.countP_cons]
      by_cases h1 : t = s
      · by_cases h2 : m.subnet = s
        · simp [h1, h2] <;> omega
        · simp [h1, h2] <;> omega
      · by_cases h2 : m.subnet = s
        · simp [h1, h2] <;> omega
        · simp [h1, h2] <;> omega

theorem countP_subnet_of_pairwise (nets : List Net)
    (h : nets.Pairwise (fun a b => a.subnet ≠ b.subnet)) (n : Net) (hn : n ∈ nets) :
    nets.countP (fun m => m.subnet == n.subnet) = 1 := by
  induction nets with
  | nil => cases hn
  | cons m rest ih =>
      rcases List.mem_cons.1 hn with h1 | h1
      · subst h1
        have hz : rest.countP (fun m => m.subnet == n.subnet) = 0 := by
          refine List.countP_eq_zero.2 (fun a ha => ?_)
          have := (List.pairwise_cons.1 h).1 a ha
          simp [this.symm]
        simp [List.countP_cons, hz]
      · have := (List.pairwise_cons.1 h).1 n h1
        have ihr := ih (List.pairwise_cons.1 h).2 h1
        simp [List.countP_cons, ihr, this]

theorem matchCount_canonical_zero (s : Nat) (nets : List Net)
    (h : ∀ m ∈ nets, m.subnet ≠ s) : matchCount s (canonical nets) = 0 := by
  induction nets with
  | nil => rfl
  | cons m rest ih =>
      have hm : m.subnet ≠ s := h m (List.mem_cons_self m rest)
      have hr : ∀ a ∈ rest, a.subnet ≠ s := fun a ha => h a (List.mem_cons_of_mem m ha)
      have hz : rest.countP (fun a => m.subnet == s || a.subnet == s) = 0 := by
        refine List.countP_eq_zero.2 (fun a ha => ?_)
        simp [hm, hr a ha]
      simp only [canonical, matchCount_append, matchCount_incPairs, hz, ih hr]

theorem matchCount_canonical (nets : List Net)
    (h : nets.Pairwise (fun a b => a.subnet ≠ b.subnet)) (n : Net) (hn : n ∈ nets) :
    matchCount n.subnet (canonical nets) = 2 * (nets.length - 1) := by
  induction nets with
  | nil => cases hn
  | cons m rest ih =>
      rcases List.pairwise_cons.1 h with ⟨hhd, htl⟩
      rcases List.mem_cons.1 hn with h1 | h1
      · subst h1
        have hz : matchCount n.subnet (canonical rest) = 0 :=
          matchCount_canonical_zero _ _ (fun a ha => (hhd a ha).symm)
        have hc : rest.countP (fun m => n.subnet == n.subnet || m.subnet == n.subnet)
            = rest.length := by
          refine List.countP_eq_length.2 (fun a _ => ?_)
          simp
        simp only [canonical, matchCount_append, matchCount_incPairs, hz, hc,
          List.length_cons]
        omega
      · have hms : m.subnet ≠ n.subnet := hhd n h1
        have hc : rest.countP (fun a => m.subnet == n.subnet || a.subnet == n.subnet)
            = 1 := by
          have h1' := countP_subnet_of_pairwise rest htl n h1
          calc rest.countP (fun a => m.subnet == n.subnet || a.subnet == n.subnet)
              = rest.countP (fun a => a.subnet == n.subnet) := by
                refine List.countP_congr (fun a _ => ?_)
                simp [hms]
            _ = 1 := h1'
        have hlen : 1 ≤ rest.length := List.length_pos.2 (List.ne_nil_of_mem h1)
        simp only [canonical, matchCount_append, matchCount_incPairs, hc, ih htl h1,
          List.length_cons]
        omega

end INC

namespace INC

theorem incPairs_length (s : Nat) (nets : List Net) :
    (incPairs s nets).length = 2 * nets.length := by
  induction nets with
  | nil => rfl
  | cons m rest ih =>
      simp only [incPairs, List.flatMap_cons, List.length_append, List.length_cons,
        List.length_nil] at *
      omega

theorem wf_init : Wf initState := ⟨List.Pairwise.nil, List.Perm.refl _⟩

theorem wf_create (id s : Nat) (st : DrvState) (h : Wf st) :
    Wf (createNetwork id s st) := by
  rcases h with ⟨hpw, hperm⟩
  unfold createNetwork
  by_cases hc : st.networks.any (fun n => n.id == id || n.subnet == s) = true
  · rw [if_pos hc]; exact ⟨hpw, hperm⟩
  · rw [if_neg hc]
    refine ⟨?_, ?_⟩
    · refine List.pairwise_append.2 ⟨hpw, List.pairwise_singleton _ _, ?_⟩
      intro a ha b hb
      have hb' : b = Net.mk id s := by simpa using hb
      subst hb'
      have hna : ¬(a.id == id || a.subnet == s) = true := by
        intro hcontra
        exact hc (List.any_eq_true.2 ⟨a, ha, hcontra⟩)
      simp only [Bool.or_eq_true, beq_iff_eq, not_or] at hna
      exact ⟨hna.1, hna.2⟩
    · exact (hperm.append_right _).trans
        (canonical_append_singleton (Net.mk id s) st.networks).symm

theorem wf_delete (id : Nat) (st : DrvState) (h : Wf st) :
    Wf (deleteNetwork id st) := by
  rcases h with ⟨hpw, hperm⟩
  unfold deleteNetwork
  cases hfind : st.networks.find? (fun n => n.id == id) with
  | none => exact ⟨hpw, hperm⟩
  | some n =>
      have hn : n ∈ st.networks := List.mem_of_find?_eq_some hfind
      have hnid : n.id = id := by
        have := List.find?_some hfind
        simpa using this
      refine ⟨hpw.filter _, ?_⟩
      have h1 := (hperm.filter (fun r => r.1 != n.subnet && r.2 != n.subnet))
      rw [canonical_filter] at h1
      have h2 : st.networks.filter (fun m => m.subnet != n.subnet) =
          st.networks.filter (fun m => m.id != id) := by
        refine List.filter_congr (fun a ha => ?_)
        by_cases hae : a = n
        · subst hae
          simp [hnid]
        · have hrel : a.id ≠ n.id ∧ a.subnet ≠ n.subnet := by
            have hsym : Symmetric (fun a b : Net => a.id ≠ b.id ∧ a.subnet ≠ b.subnet) :=
              fun x y hxy => ⟨hxy.1.symm, hxy.2.symm⟩
            exact hpw.forall hsym ha hn hae
          rw [← hnid]
          have e1 : (a.subnet != n.subnet) = true := by simp [hrel.2]
          have e2 : (a.id != n.id) = true := by simp [hrel.1]
          rw [e1, e2]
      rw [h2] at h1
      exact h1

theorem wf_applyOp (st : DrvState) (op : Op) (h : Wf st) : Wf (applyOp st op) := by
  cases op with
  | create id s => exact wf_create id s st h
  | delete id => exact wf_delete id st h

theorem wf_foldl (ops : List Op) (st : DrvState) (h : Wf st) :
    Wf (ops.foldl applyOp st) := by
  induction ops generalizing st with
  | nil => exact h
  | cons op rest ih => exact ih (applyOp st op) (wf_applyOp st op h)

theorem wf_run (ops : List Op) : Wf (run ops) := wf_foldl ops initState wf_init

end INC

namespace INC

/-- C1: Isolation rule count invariant.  For every sequence of
CreateNetwork/DeleteNetwork calls on a driver with iptables enabled, at
every point where N networks are live each live network's subnet matches
exactly 2×(N−1) entries of the forwarding rule table, and creating the
k-th network installs exactly the 2(k−1) new pairwise rules (deletion is
covered because every reachable state, including each state right after a
DeleteNetwork, is `run ops` for some op sequence). -/
theorem inc_isolation_rule_count_invariant (ops : List Op) :
    (∀ n ∈ (run ops).networks,
        matchCount n.subnet (run ops).rules = 2 * ((run ops).networks.length - 1)) ∧
    (∀ id s, (run ops).networks.any (fun n => n.id == id || n.subnet == s) = false →
      (createNetwork id s (run ops)).rules.length
        = (run ops).rules.length + 2 * (run ops).networks.length) := by
  rcases wf_run ops with ⟨hpw, hperm⟩
  constructor
  · intro n hn
    have hsub : (run ops).networks.Pairwise (fun a b => a.subnet ≠ b.subnet) :=
      hpw.imp (fun h => h.2)
    have h1 : matchCount n.subnet (run ops).rules
        = matchCount n.subnet (canonical (run ops).networks) := by
      unfold matchCount
      exact hperm.countP_eq _
    rw [h1]
    exact matchCount_canonical _ hsub n hn
  · intro id s hguard
    unfold createNetwork
    rw [if_neg (by simp [hguard])]
    simp [incPairs_length]

/-- Witness for C1 at a concrete call sequence: after creating three
networks the first network's subnet matches 4 forwarding entries, and a
fourth create adds 6 new rules. -/
theorem inc_isolation_rule_count_invariant_witness :
    ((Net.mk 1 10) ∈ (run [Op.create 1 10, Op.create 2 20, Op.create 3 30]).networks ∧
      matchCount 10 (run [Op.create 1 10, Op.create 2 20, Op.create 3 30]).rules
        = 2 * ((run [Op.create 1 10, Op.create 2 20, Op.create 3 30]).networks.length - 1)) ∧
    ((run [Op.create 1 10, Op.create 2 20, Op.create 3 30]).networks.any
        (fun n => n.id == 4 || n.subnet == 40) = false ∧
      (createNetwork 4 40 (run [Op.create 1 10, Op.create 2 20, Op.create 3 30])).rules.length
        = (run [Op.create 1 10, Op.create 2 20, Op.create 3 30]).rules.length
          + 2 * (run [Op.create 1 10, Op.create 2 20, Op.create 3 30]).networks.length) :=
  ⟨⟨by decide, (inc_isolation_rule_count_invariant _).1 (Net.mk 1 10) (by decide)⟩,
   ⟨by decide, (inc_isolation_rule_count_invariant _).2 4 40 (by decide)⟩⟩

end INC

namespace Cfg

theorem validate_ok_of_checks (c : NetworkConfiguration) (hmtu : 0 ≤ c.mtu)
    (h1 : checkFixedCIDR c = .ok ()) (h2 : checkGatewayIPv4 c = .ok ())
    (h3 : checkGatewayIPv6 c = .ok ()) : validate c = .ok () := by
  unfold validate
  rw [if_neg (by omega), h1, h2, h3]

theorem validate_ok_iff (c : NetworkConfiguration) (hmtu : 0 ≤ c.mtu) :
    validate c = .ok () ↔
      checkFixedCIDR c = .ok () ∧ checkGatewayIPv4 c = .ok () ∧
        checkGatewayIPv6 c = .ok () := by
  unfold validate
  rw [if_neg (by omega)]
  cases hf : checkFixedCIDR c with
  | error e => simp [hf]
  | ok u =>
      cases u
      cases hg : checkGatewayIPv4 c with
      | error e => simp [hg]
      | ok v =>
          cases v
          simp [hf, hg]

/-- C4: Gateway validation.  Under the other checks passing, validation
succeeds iff the explicit IPv4 default gateway lies inside the fixed
sub-CIDR when one is set, else inside the full subnet; the IPv6 gateway
is validated against the v6 fixed sub-CIDR and is rejected whenever no
v6 fixed sub-CIDR is configured.  Concretely, FixedCIDR 172.28.0.0/16
with gateway 172.27.30.234 is rejected as BadRequest while gateway
172.28.30.234 is accepted. -/
theorem cfg_gateway_validation :
    (∀ c gw, 0 ≤ c.mtu → checkFixedCIDR c = .ok () → checkGatewayIPv6 c = .ok () →
        c.defaultGatewayIPv4 = some gw →
        (validate c = .ok () ↔ gatewayV4Ok c gw = true)) ∧
    (∀ c gw6, 0 ≤ c.mtu → checkFixedCIDR c = .ok () → checkGatewayIPv4 c = .ok () →
        c.defaultGatewayIPv6 = some gw6 →
        (validate c = .ok () ↔
          ∃ f6, c.fixedCIDRv6 = some f6 ∧ IPNet.containsIP 128 f6 gw6 = true)) ∧
    validate gwExampleBad = .error (.badRequest "invalid gateway") ∧
    validate gwExampleGood = .ok () := by
  refine ⟨?_, ?_, by decide, by decide⟩
  · intro c gw hmtu h1 h3 hgw
    rw [validate_ok_iff c hmtu]
    unfold checkGatewayIPv4 gatewayV4Ok
    rw [hgw]
    cases hf : c.fixedCIDR with
    | some f =>
        by_cases hc : IPNet.containsIP 32 f gw = true
        · simp [hc, h1, h3]
        · simp [hc, h1, h3]
    | none =>
        cases ha : c.addressIPv4 with
        | some nw =>
            by_cases hc : IPNet.containsIP 32 nw gw = true
            · simp [hc, h1, h3]
            · simp [hc, h1, h3]
        | none => simp [h1, h3]
  · intro c gw6 hmtu h1 h2 hgw6
    rw [validate_ok_iff c hmtu]
    unfold checkGatewayIPv6
    rw [hgw6]
    cases hf : c.fixedCIDRv6 with
    | some f6 =>
        by_cases hc : IPNet.containsIP 128 f6 gw6 = true
        · simp [hc, h1, h2]
        · simp [hc, h1, h2]
    | none => simp [h1, h2]

end Cfg

namespace Cfg

/-- Witness for C4 at the claim's accepted example: gateway 172.28.30.234
inside FixedCIDR 172.28.0.0/16 validates. -/
theorem cfg_gateway_validation_witness :
    (0 ≤ gwExampleGood.mtu ∧ checkFixedCIDR gwExampleGood = .ok () ∧
      checkGatewayIPv6 gwExampleGood = .ok () ∧
      gwExampleGood.defaultGatewayIPv4 = some (ipv4 172 28 30 234)) ∧
    (validate gwExampleGood = .ok () ↔
      gatewayV4Ok gwExampleGood (ipv4 172 28 30 234) = true) :=
  ⟨⟨by decide, by decide, by decide, by decide⟩,
   cfg_gateway_validation.1 gwExampleGood _ (by decide) (by decide) (by decide) (by decide)⟩

/-- C5: FixedCIDR containment validation.  With both an IPv4 subnet and
a fixed container-address sub-CIDR set (and the remaining checks
passing), validation succeeds iff the fixed sub-CIDR is fully contained
in the network's address block; concretely a disjoint 172.27.0.0/16 and
a strictly larger 172.28.0.0/15 fail against 172.28.0.0/16, while an
equal /16 and a contained /17 pass. -/
theorem cfg_fixed_cidr_validation :
    (∀ c nw f, 0 ≤ c.mtu → c.addressIPv4 = some nw → c.fixedCIDR = some f →
        checkGatewayIPv4 c = .ok () → checkGatewayIPv6 c = .ok () →
        (validate c = .ok () ↔ IPNet.containsNet 32 nw f = true)) ∧
    validate fixedExampleDisjoint = .error (.badRequest "invalid container subnet") ∧
    validate fixedExampleEqual = .ok () ∧
    validate fixedExampleLarger = .error (.badRequest "invalid container subnet") ∧
    validate fixedExampleSmaller = .ok () := by
  refine ⟨?_, by decide, by decide, by decide, by decide⟩
  intro c nw f hmtu ha hf hg4 hg6
  rw [validate_ok_iff c hmtu]
  unfold checkFixedCIDR
  rw [ha, hf]
  by_cases hc : IPNet.containsNet 32 nw f = true
  · simp [hc, hg4, hg6]
  · simp [hc, hg4, hg6]

/-- Witness for C5 at the contained /17 example. -/
theorem cfg_fixed_cidr_validation_witness :
    (0 ≤ fixedExampleSmaller.mtu ∧
      fixedExampleSmaller.addressIPv4 = some ⟨ipv4 172 28 0 0, 16⟩ ∧
      fixedExampleSmaller.fixedCIDR = some ⟨ipv4 172 28 0 0, 17⟩ ∧
      checkGatewayIPv4 fixedExampleSmaller = .ok () ∧
      checkGatewayIPv6 fixedExampleSmaller = .ok ()) ∧
    (validate fixedExampleSmaller = .ok () ↔
      IPNet.containsNet 32 ⟨ipv4 172 28 0 0, 16⟩ ⟨ipv4 172 28 0 0, 17⟩ = true) :=
  ⟨⟨by decide, by decide, by decide, by decide, by decide⟩,
   cfg_fixed_cidr_validation.1 fixedExampleSmaller _ _ (by decide) (by decide) (by decide)
     (by decide) (by decide)⟩

end Cfg

namespace Drv

/-- C3: Default network protection.  When a network bound to the default
bridge name is live, creating a second network bound to that name fails
`Forbidden` (the existing network is not overwritten — the state is only
returned on success), and deleting the default network fails `Forbidden`
as well. -/
theorem drv_default_network_protection (st : DState) (n : BNet)
    (hn : n ∈ st.networks) (hd : n.bridgeName = DefaultBridgeName)
    (hfind : st.networks.find? (fun m => m.id == n.id) = some n) :
    (∀ id, createNetworkD st id DefaultBridgeName =
        .error (.forbidden "only one default network allowed")) ∧
    deleteNetworkD st n.id =
      .error (.forbidden "default network cannot be deleted") := by
  constructor
  · intro id
    unfold createNetworkD
    rw [if_pos]
    exact ⟨rfl, List.any_eq_true.2 ⟨n, hn, by simp [hd]⟩⟩
  · unfold deleteNetworkD
    rw [hfind]
    simp [hd]

/-- Witness for C3: the TestCreate scenario — one network "dummy" on the
default bridge; a second create and a delete both fail Forbidden. -/
theorem drv_default_network_protection_witness :
    ((BNet.mk "dummy" "docker0") ∈
        (DState.mk [BNet.mk "dummy" "docker0"]).networks ∧
      (BNet.mk "dummy" "docker0").bridgeName = DefaultBridgeName ∧
      (DState.mk [BNet.mk "dummy" "docker0"]).networks.find?
        (fun m => m.id == "dummy") = some (BNet.mk "dummy" "docker0")) ∧
    createNetworkD (DState.mk [BNet.mk "dummy" "docker0"]) "dummy2" DefaultBridgeName
      = .error (.forbidden "only one default network allowed") ∧
    deleteNetworkD (DState.mk [BNet.mk "dummy" "docker0"]) "dummy"
      = .error (.forbidden "default network cannot be deleted") := by
  have h := drv_default_network_protection (DState.mk [BNet.mk "dummy" "docker0"])
    (BNet.mk "dummy" "docker0") (by decide) (by decide) (by decide)
  exact ⟨⟨by decide, by decide, by decide⟩, h.1 "dummy2", h.2⟩

end Drv

namespace Link

theorem installLinks_error (net : LNet) (parentId : String) (children : List String)
    (hbad : ∃ c ∈ children, net.endpoints.find? (fun e => e.id == c) = none) :
    ∀ fw, ∃ e, installLinks net parentId children fw = .error e := by
  induction children with
  | nil => rcases hbad with ⟨c, hc, _⟩; cases hc
  | cons c rest ih =>
      intro fw
      rcases hbad with ⟨b, hb, hbnone⟩
      rcases List.mem_cons.1 hb with hb1 | hb1
      · subst hb1
        unfold installLinks
        rw [hbnone]
        exact ⟨_, rfl⟩
      · unfold installLinks
        cases hfc : net.endpoints.find? (fun e => e.id == c) with
        | none => exact ⟨_, rfl⟩
        | some child => exact ih ⟨b, hb1, hbnone⟩ _

/-- C2: Join rollback atomicity on a bad link reference.  If the
linked-children list names a child that does not resolve in the network,
the join's link step fails and the firewall state after the call equals
the state before it; in particular a join attempted from an empty
firewall state leaves zero exposed-port rules — neither
destination-port nor source-port patterns are present. -/
theorem link_join_rollback (net : LNet) (parentId : String)
    (children : List String) (fw : List PortRule)
    (hbad : ∃ c ∈ children, net.endpoints.find? (fun e => e.id == c) = none) :
    (∃ e, (joinLink net parentId children fw).1 = .error e) ∧
    (joinLink net parentId children fw).2 = fw ∧
    (∀ proto port,
      countDport (joinLink net parentId children []).2 proto port = 0 ∧
      countSport (joinLink net parentId children []).2 proto port = 0) := by
  have herr := installLinks_error net parentId children hbad fw
  have herr0 := installLinks_error net parentId children hbad []
  rcases herr with ⟨e, he⟩
  rcases herr0 with ⟨e0, he0⟩
  have h2 : joinLink net parentId children fw = (.error e, fw) := by
    unfold joinLink
    rw [he]
  have h20 : joinLink net parentId children [] = (.error e0, []) := by
    unfold joinLink
    rw [he0]
  refine ⟨⟨e, by rw [h2]⟩, by rw [h2], fun proto port => ?_⟩
  rw [h20]
  exact ⟨rfl, rfl⟩

/-- Witness for C2: the TestLinkContainers error scenario — network with
endpoints ep1 (three exposed ports) and ep2, joining ep2 with children
["ep1", "ep4"] where ep4 does not exist. -/
theorem link_join_rollback_witness :
    (∃ c ∈ ["ep1", "ep4"],
      (LNet.mk [Ep.mk "ep1" [⟨6, 5000⟩, ⟨17, 400⟩, ⟨6, 600⟩], Ep.mk "ep2" []]).endpoints.find?
        (fun e => e.id == c) = none) ∧
    (∃ e, (joinLink (LNet.mk [Ep.mk "ep1" [⟨6, 5000⟩, ⟨17, 400⟩, ⟨6, 600⟩], Ep.mk "ep2" []])
        "ep2" ["ep1", "ep4"] []).1 = .error e) ∧
    countDport (joinLink (LNet.mk [Ep.mk "ep1" [⟨6, 5000⟩, ⟨17, 400⟩, ⟨6, 600⟩], Ep.mk "ep2" []])
        "ep2" ["ep1", "ep4"] []).2 6 5000 = 0 ∧
    countSport (joinLink (LNet.mk [Ep.mk "ep1" [⟨6, 5000⟩, ⟨17, 400⟩, ⟨6, 600⟩], Ep.mk "ep2" []])
        "ep2" ["ep1", "ep4"] []).2 6 5000 = 0 := by
  have h := link_join_rollback
    (LNet.mk [Ep.mk "ep1" [⟨6, 5000⟩, ⟨17, 400⟩, ⟨6, 600⟩], Ep.mk "ep2" []])
    "ep2" ["ep1", "ep4"] [] (by decide)
  exact ⟨by decide, h.1, (h.2.2 6 5000).1, (h.2.2 6 5000).2⟩

end Link

namespace Oper

/-- C8: EndpointOperInfo port-mapping snapshot.  For every endpoint
created with a list of published port bindings,
`EndpointOperInfo(networkID, endpointID)` succeeds and returns under the
port-map key exactly the endpoint's stored port mappings (same list,
element for element); `endpointOperInfo` is a pure function of the
state, so the query modifies nothing. -/
theorem oper_find_map (l : List ONet) (nid eid : String) (pm : List PortBinding)
    (n : ONet) (hfn : l.find? (fun m => m.id == nid) = some n) :
    (l.map (fun m =>
        if m.id == nid then { m with endpoints := m.endpoints ++ [⟨eid, pm⟩] }
        else m)).find? (fun m => m.id == nid)
      = some { n with endpoints := n.endpoints ++ [⟨eid, pm⟩] } := by
  induction l with
  | nil => cases hfn
  | cons a l ih =>
      by_cases ha : (a.id == nid) = true
      · rw [@List.find?_cons_of_pos _ (fun m : ONet => m.id == nid) a l ha] at hfn
        injection hfn with hfn
        subst hfn
        rw [List.map_cons, if_pos ha]
        have ha' : a.id = nid := by simpa using ha
        refine List.find?_cons_of_pos _ ?_
        simp [ha']
      · rw [@List.find?_cons_of_neg _ (fun m : ONet => m.id == nid) a l ha] at hfn
        rw [List.map_cons, if_neg ha]
        rw [@List.find?_cons_of_neg _ (fun m : ONet => m.id == nid) a _ ha]
        exact ih hfn

theorem oper_port_mapping_snapshot (st : OState) (nid eid : String)
    (pm : List PortBinding) (st' : OState)
    (h : createEndpointO st nid eid pm = .ok st') :
    endpointOperInfo st' nid eid = .ok pm := by
  obtain ⟨nets'⟩ := st'
  unfold createEndpointO at h
  cases hfn : st.networks.find? (fun n => n.id == nid) with
  | none => rw [hfn] at h; cases h
  | some n =>
      rw [hfn] at h
      dsimp only at h
      by_cases hex : (n.endpoints.any fun e => e.id == eid) = true
      · rw [if_pos hex] at h; cases h
      · rw [if_neg hex] at h
        injection h with h
        injection h with h
        subst h
        unfold endpointOperInfo
        dsimp only
        rw [oper_find_map st.networks nid eid pm n hfn]
        have hnone : n.endpoints.find? (fun e => e.id == eid) = none := by
          rw [Bool.not_eq_true] at hex
          exact List.find?_eq_none.2 (List.any_eq_false.1 hex)
        dsimp only
        rw [List.find?_append, hnone]
        simp

/-- Witness for C8: the testQueryEndpointInfo port mappings
(tcp 230→23000, udp 200→22000, tcp 120→12000) on network "net1". -/
theorem oper_port_mapping_snapshot_witness :
    createEndpointO (OState.mk [ONet.mk "net1" []]) "net1" "ep1"
        [⟨6, 230, 23000⟩, ⟨17, 200, 22000⟩, ⟨6, 120, 12000⟩]
      = .ok (OState.mk [ONet.mk "net1"
          [OEp.mk "ep1" [⟨6, 230, 23000⟩, ⟨17, 200, 22000⟩, ⟨6, 120, 12000⟩]]]) ∧
    endpointOperInfo (OState.mk [ONet.mk "net1"
        [OEp.mk "ep1" [⟨6, 230, 23000⟩, ⟨17, 200, 22000⟩, ⟨6, 120, 12000⟩]]]) "net1" "ep1"
      = .ok [⟨6, 230, 23000⟩, ⟨17, 200, 22000⟩, ⟨6, 120, 12000⟩] :=
  ⟨by decide,
   oper_port_mapping_snapshot (OState.mk [ONet.mk "net1" []]) "net1" "ep1"
     [⟨6, 230, 23000⟩, ⟨17, 200, 22000⟩, ⟨6, 120, 12000⟩] _ (by decide)⟩

end Oper

namespace Ipam

theorem requestAddress_contains (pool : Cfg.IPNet) (gw : Option Nat)
    (alloc : List Nat) (a : Nat) (h : requestAddress pool gw alloc = .ok a) :
    Cfg.IPNet.containsIP 32 pool a = true := by
  unfold requestAddress at h
  cases hfind : (List.range (pool.size 32)).find? (fun i =>
      decide (0 < i) && decide (i < pool.size 32 - 1) &&
      !(alloc.contains (pool.base 32 + i)) &&
      !(gw == some (pool.base 32 + i))) with
  | none => rw [hfind] at h; cases h
  | some i =>
      rw [hfind] at h
      injection h with h
      subst h
      have hilt : i < pool.size 32 :=
        List.mem_range.1 (List.mem_of_find?_eq_some hfind)
      unfold Cfg.IPNet.containsIP
      simp only [Bool.and_eq_true, decide_eq_true_eq]
      omega

/-- C7: Endpoint address drawn from the fixed sub-CIDR.  When a network
is configured with a FixedCIDR container-address block, every IPv4
address `CreateEndpoint` assigns lies inside that block (the allocation
pool is the fixed sub-CIDR, not the full subnet). -/
theorem ipam_endpoint_addr_in_fixed_cidr (n : ANet) (f : Cfg.IPNet)
    (hf : n.fixedCIDR = some f) (a : Nat) (n' : ANet)
    (h : createEndpointA n = .ok (a, n')) :
    Cfg.IPNet.containsIP 32 f a = true := by
  have hpool : addrPool n = f := by unfold addrPool; rw [hf]; rfl
  unfold createEndpointA at h
  cases hreq : requestAddress (addrPool n) n.gateway n.allocated with
  | error e => rw [hreq] at h; cases h
  | ok b =>
      rw [hreq] at h
      dsimp only at h
      injection h with h
      have hb : b = a := congrArg Prod.fst h
      rw [hpool, hb] at hreq
      exact requestAddress_contains f n.gateway n.allocated a hreq

/-- Witness for C7: the TestCreateFullOptions layout — subnet
172.16.0.0/16 with FixedCIDR 172.16.122.0/24; the first assigned
address is 172.16.122.1, inside the fixed block. -/
theorem ipam_endpoint_addr_in_fixed_cidr_witness :
    ((ANet.mk ⟨Cfg.ipv4 172 16 0 10, 16⟩ (some ⟨Cfg.ipv4 172 16 122 0, 24⟩)
        (some (Cfg.ipv4 172 16 0 1)) []).fixedCIDR = some ⟨Cfg.ipv4 172 16 122 0, 24⟩ ∧
      createEndpointA (ANet.mk ⟨Cfg.ipv4 172 16 0 10, 16⟩
          (some ⟨Cfg.ipv4 172 16 122 0, 24⟩) (some (Cfg.ipv4 172 16 0 1)) [])
        = .ok (Cfg.ipv4 172 16 122 1,
            ANet.mk ⟨Cfg.ipv4 172 16 0 10, 16⟩ (some ⟨Cfg.ipv4 172 16 122 0, 24⟩)
              (some (Cfg.ipv4 172 16 0 1)) [Cfg.ipv4 172 16 122 1])) ∧
    Cfg.IPNet.containsIP 32 ⟨Cfg.ipv4 172 16 122 0, 24⟩ (Cfg.ipv4 172 16 122 1) = true :=
  ⟨⟨by decide, by decide⟩,
   ipam_endpoint_addr_in_fixed_cidr
     (ANet.mk ⟨Cfg.ipv4 172 16 0 10, 16⟩ (some ⟨Cfg.ipv4 172 16 122 0, 24⟩)
        (some (Cfg.ipv4 172 16 0 1)) [])
     ⟨Cfg.ipv4 172 16 122 0, 24⟩ (by decide) (Cfg.ipv4 172 16 122 1)
     (ANet.mk ⟨Cfg.ipv4 172 16 0 10, 16⟩ (some ⟨Cfg.ipv4 172 16 122 0, 24⟩)
        (some (Cfg.ipv4 172 16 0 1)) [Cfg.ipv4 172 16 122 1]) (by decide)⟩

end Ipam

namespace Api

theorem any_pointwise {α : Type} (l : List α) (p q : α → Bool)
    (h : ∀ x, p x = q x) : l.any p = l.any q := by
  induction l with
  | nil => rfl
  | cons a l ih => simp [List.any_cons, h a, ih]

theorem mapInsert_hasKey (m : List (String × EndpointResource)) (k c : String)
    (v : EndpointResource) :
    ((mapInsert m k v).any (fun p => p.1 == c)) = ((k == c) || m.any (fun p => p.1 == c)) := by
  unfold mapInsert
  rw [List.any_append, List.any_filter]
  by_cases hkc : k = c
  · subst hkc
    simp
  · have hb : (k == c) = false := by simp [hkc]
    simp only [List.any_cons, List.any_nil, hb, Bool.or_false, Bool.false_or]
    rw [any_pointwise m (fun p => p.1 != k && p.1 == c) (fun p => p.1 == c)]
    intro x
    by_cases hx : x.1 = c
    · subst hx
      simp [hkc, Ne.symm hkc]
    · simp [hx]

theorem buildContainersGo_hasKey (l : List Endpoint) (cid : String) :
    ∀ acc, ((buildContainersGo acc l).any (fun p => p.1 == cid))
      = (acc.any (fun p => p.1 == cid) ||
         l.any (fun e => match e.sandbox with
           | some sb => sb.containerID == cid
           | none => false)) := by
  induction l with
  | nil => intro acc; simp [buildContainersGo]
  | cons e rest ih =>
      intro acc
      cases hs : e.sandbox with
      | none =>
          simp only [buildContainersGo, hs, List.any_cons]
          rw [ih acc]
          simp
      | some sb =>
          simp only [buildContainersGo, hs, List.any_cons]
          rw [ih (mapInsert acc sb.containerID (endpointResourceOf e)), mapInsert_hasKey]
          cases hb1 : sb.containerID == cid <;>
            cases hb2 : acc.any (fun p => p.1 == cid) <;> simp

/-- C6: Joined-only endpoint view.  The network-resource summary built by
`buildNetworkResource` contains an entry in its Containers map for
container id `cid` iff some endpoint of the network is joined to a live
sandbox with that container id; endpoints whose sandbox is nil are
omitted. -/
theorem api_joined_only_endpoint_view (nw : Network) (cid : String) :
    ((buildNetworkResource (some nw)).containers.any (fun p => p.1 == cid)) = true ↔
      ∃ e ∈ nw.endpoints, ∃ sb, e.sandbox = some sb ∧ sb.containerID = cid := by
  unfold buildNetworkResource
  dsimp only
  rw [buildContainersGo_hasKey nw.endpoints cid []]
  simp only [List.any_nil, Bool.false_or, List.any_eq_true]
  constructor
  · rintro ⟨e, he, hpred⟩
    cases hs : e.sandbox with
    | none => rw [hs] at hpred; cases hpred
    | some sb =>
        rw [hs] at hpred
        exact ⟨e, he, sb, hs, by simpa using hpred⟩
  · rintro ⟨e, he, sb, hs, hcid⟩
    refine ⟨e, he, ?_⟩
    rw [hs]
    simp [hcid]

end Api

namespace Api

/-- C9: Duplicate-name create policy at the API.  When a network with the
requested (non-empty) name already exists, `postNetworkCreate` fails
with a name error only if the request sets CheckDuplicate; otherwise it
still creates a new network — the count of networks carrying that name
grows to at least two — and returns success with a warning string
naming the pre-existing network. -/
theorem api_duplicate_name_create_policy (c : Ctrl) (name freshID : String)
    (nw : CNet) (hname : name ≠ "")
    (hfound : c.networks.find? (fun n => n.name == name) = some nw) :
    (postNetworkCreate c ⟨name, true⟩ freshID = .error (.networkNameError name)) ∧
    (postNetworkCreate c ⟨name, false⟩ freshID
        = .ok (newNetwork c freshID name,
            ⟨freshID, "Network with name " ++ nw.name ++ " (id : " ++ nw.id
              ++ ") already exists"⟩)) ∧
    ("Network with name " ++ nw.name ++ " (id : " ++ nw.id ++ ") already exists" ≠ "") ∧
    ((newNetwork c freshID name).networks.countP (fun n => n.name == name)
        = c.networks.countP (fun n => n.name == name) + 1) ∧
    2 ≤ (newNetwork c freshID name).networks.countP (fun n => n.name == name) := by
  have hfindnw : findNetwork c name Selector.byName = .ok nw := by
    unfold findNetwork networkByName
    rw [if_neg hname, hfound]
  have hcount : (newNetwork c freshID name).networks.countP (fun n => n.name == name)
      = c.networks.countP (fun n => n.name == name) + 1 := by
    unfold newNetwork
    dsimp only
    rw [List.countP_append]
    simp [List.countP_cons]
  refine ⟨?_, ?_, ?_, hcount, ?_⟩
  · unfold postNetworkCreate
    rw [hfindnw]
    simp
  · unfold postNetworkCreate
    rw [hfindnw]
    simp
  · intro hstr
    have hlen := congrArg String.length hstr
    rw [String.length_append, String.length_append, String.length_append,
      String.length_append] at hlen
    have h18 : ("Network with name " : String).length = 18 := by decide
    have h0 : ("" : String).length = 0 := by decide
    rw [h18, h0] at hlen
    omega
  · have hp := List.find?_some hfound
    have hpos : 0 < c.networks.countP (fun n => n.name == name) :=
      List.countP_pos.2 ⟨nw, List.mem_of_find?_eq_some hfound, hp⟩
    omega

/-- Witness for C9: a controller holding one network named "test"; a
CheckDuplicate create fails, a plain create succeeds with the warning
and yields two networks named "test". -/
theorem api_duplicate_name_create_policy_witness :
    (("test" : String) ≠ "" ∧
      (Ctrl.mk [CNet.mk "id0" "test"] "bridge").networks.find?
        (fun n => n.name == "test") = some (CNet.mk "id0" "test")) ∧
    postNetworkCreate (Ctrl.mk [CNet.mk "id0" "test"] "bridge") ⟨"test", true⟩ "id1"
      = .error (.networkNameError "test") ∧
    postNetworkCreate (Ctrl.mk [CNet.mk "id0" "test"] "bridge") ⟨"test", false⟩ "id1"
      = .ok (newNetwork (Ctrl.mk [CNet.mk "id0" "test"] "bridge") "id1" "test",
          ⟨"id1", "Network with name " ++ "test" ++ " (id : " ++ "id0" ++ ") already exists"⟩) ∧
    2 ≤ (newNetwork (Ctrl.mk [CNet.mk "id0" "test"] "bridge") "id1" "test").networks.countP
          (fun n => n.name == "test") := by
  have h := api_duplicate_name_create_policy (Ctrl.mk [CNet.mk "id0" "test"] "bridge")
    "test" "id1" (CNet.mk "id0" "test") (by decide) (by decide)
  exact ⟨⟨by decide, by decide⟩, h.1, h.2.1, h.2.2.2.2⟩

/-- C10: Empty-name lookup falls back to the default network.  A by-name
`findNetwork` lookup with the empty string substitutes the controller's
configured default network name before resolving, so an empty name
resolves to the daemon's default network instead of failing. -/
theorem api_empty_name_default_lookup (c : Ctrl) (nw : CNet) :
    findNetwork c "" Selector.byName = networkByName c c.defaultNetwork ∧
    (c.networks.find? (fun n => n.name == c.defaultNetwork) = some nw →
      findNetwork c "" Selector.byName = .ok nw) := by
  constructor
  · unfold findNetwork
    rw [if_pos rfl]
  · intro h
    unfold findNetwork networkByName
    rw [if_pos rfl, h]

/-- Witness for C10: a controller whose default network name is "bridge"
and which holds a network of that name; the empty-name lookup returns
it. -/
theorem api_empty_name_default_lookup_witness :
    (Ctrl.mk [CNet.mk "id0" "bridge"] "bridge").networks.find?
        (fun n => n.name == (Ctrl.mk [CNet.mk "id0" "bridge"] "bridge").defaultNetwork)
      = some (CNet.mk "id0" "bridge") ∧
    findNetwork (Ctrl.mk [CNet.mk "id0" "bridge"] "bridge") "" Selector.byName
      = .ok (CNet.mk "id0" "bridge") :=
  ⟨by decide,
   (api_empty_name_default_lookup (Ctrl.mk [CNet.mk "id0" "bridge"] "bridge")
     (CNet.mk "id0" "bridge")).2 (by decide)⟩

end Api
